import Mathlib

/-!
Shallow embedding of the file lifecycle manager of the jogou-baixou backend
(`src/utils/fileStorage.ts`, `src/utils/fileSanitizer.ts`).

Modelling conventions:
* Timestamps are naturals (milliseconds since the epoch); the comparison
  `new Date() > new Date(d)` becomes `d < now` with `now` passed explicitly.
* The in-memory object `fileInfoStorage` is an association list from id to
  `FileInfo`; a JS object has at most one binding per key, which the
  association-list reading (first binding wins, deletion drops every binding)
  reproduces.
* The file system is explicit state: `disk` is the list of content-file paths
  present (`fs.existsSync` on a content path is membership), `mirror` is the
  JSON mirror `file-info.json` (`none` when the file is absent), and
  `storageDirExists` / `diskFull` drive the success of `fs.writeFileSync` on
  the mirror: a write succeeds iff the storage directory exists and the disk
  is not full.
* A thrown JS exception is `Except.error`; operations whose source wraps every
  fallible call in `try`/`catch` are total functions on `Storage`.
* Randomness (`crypto.randomBytes`) and the content digest are passed in as
  arguments, keeping every definition executable and deterministic.
-/

namespace JogouBaixou

/-- `FileInfo` as declared at the top of `src/utils/fileStorage.ts` (that file
declares its own copy of the interface, with `accessToken` and `downloadCount`
optional). -/
structure FileInfo where
  id : String
  originalName : String
  filename : String
  mimetype : String
  size : Nat
  path : String
  uploadDate : Nat
  expiryDate : Nat
  accessToken : Option String := none
  downloadCount : Option Nat := none
deriving Repr, DecidableEq

/-- JS object property read `fileInfoStorage[id]`. -/
def getRecord : List (String × FileInfo) → String → Option FileInfo
  | [], _ => none
  | (k, v) :: rest, id => if k = id then some v else getRecord rest id

/-- JS `delete fileInfoStorage[id]`: drop the binding of `id`, keep the rest
in order. -/
def removeRecord : List (String × FileInfo) → String → List (String × FileInfo)
  | [], _ => []
  | (k, v) :: rest, id =>
    if k = id then removeRecord rest id else (k, v) :: removeRecord rest id

/-- JS assignment `fileInfoStorage[id] = v`. -/
def setRecord (m : List (String × FileInfo)) (id : String) (v : FileInfo) :
    List (String × FileInfo) :=
  (id, v) :: removeRecord m id

/-- The full mutable state touched by `fileStorage.ts`: the in-memory map, the
content files on disk, the JSON mirror file, and the two file-system conditions
that decide whether a mirror write succeeds. -/
structure Storage where
  metadata : List (String × FileInfo)
  disk : List String
  mirror : Option (List (String × FileInfo)) := none
  storageDirExists : Bool := true
  diskFull : Bool := false
deriving Repr, DecidableEq

/-- A `fs.writeFileSync` on the mirror succeeds iff the storage directory
exists and the disk is not full. -/
def writeOk (s : Storage) : Bool := s.storageDirExists && !s.diskFull

/-- `fs.writeFileSync(storageFilePath, JSON.stringify(fileInfoStorage), ...)`
as it appears inside a `try`/`catch` whose handler only logs: on success the
mirror is replaced by the current map, on failure the state is unchanged. -/
def tryWriteMirror (s : Storage) : Storage :=
  if writeOk s then { s with mirror := some s.metadata } else s

/-- One character class `[0-9a-f]` under the `i` flag. -/
def isHexDigit (c : Char) : Bool :=
  ('0' ≤ c && c ≤ '9') || ('a' ≤ c && c ≤ 'f') || ('A' ≤ c && c ≤ 'F')

/-- The inline test
`/^[0-9a-f]{8}-[0-9a-f]{4}-[0-9a-f]{4}-[0-9a-f]{4}-[0-9a-f]{12}$/i.test(id)`
performed by `getFileInfoById` before any map access. -/
def validIdTest (id : String) : Bool :=
  let cs := id.toList
  cs.length == 36 &&
  (List.range 36).all fun i =>
    if i == 8 || i == 13 || i == 18 || i == 23 then cs.getD i ' ' == '-'
    else isHexDigit (cs.getD i ' ')

/-- `isFileExpired`: `new Date() > new Date(fileInfo.expiryDate)` — strictly
greater, so at `now = expiryDate` the file is not yet expired. -/
def isFileExpired (now : Nat) (fileInfo : FileInfo) : Bool :=
  fileInfo.expiryDate < now

/-- The JS truthiness test `!fileInfo.accessToken`, true for `undefined` and
for the empty string. -/
def tokenMissing : Option String → Bool
  | none => true
  | some t => t == ""

/-- The two defaulting mutations at the top of `saveFileInfo`: generate an
access token when the stored one is falsy, and initialise `downloadCount`
to `0` when it is strictly `undefined`. -/
def normalizeFileInfo (fileInfo : FileInfo) (freshToken : String) : FileInfo :=
  let fi1 := if tokenMissing fileInfo.accessToken
    then { fileInfo with accessToken := some freshToken } else fileInfo
  if fi1.downloadCount = none then { fi1 with downloadCount := some 0 } else fi1

/-- `saveFileInfo`. `freshToken` stands for `generateAccessToken()`
(`crypto.randomBytes(32).toString('hex')`). The body: default the token and
the download count (`normalizeFileInfo`), store into the map, then try the
mirror write; on failure the handler only logs unless the storage directory
is missing, in which case it is created (`mkdirSync`) and the write
retried — and that retry sits outside any inner handler, so its failure
propagates to the caller. -/
def saveFileInfo (s : Storage) (fileInfo : FileInfo) (freshToken : String) :
    Except Unit Storage :=
  let fi2 := normalizeFileInfo fileInfo freshToken
  let s1 : Storage := { s with metadata := setRecord s.metadata fi2.id fi2 }
  if writeOk s1 then
    .ok { s1 with mirror := some s1.metadata }
  else if !s1.storageDirExists then
    let s2 : Storage := { s1 with storageDirExists := true }
    if writeOk s2 then .ok { s2 with mirror := some s2.metadata }
    else .error ()
  else
    .ok s1

/-- `getFileInfoById`: id-format check, map read, expiry check, disk-presence
check (with a synchronous metadata cleanup and best-effort mirror write when
the content file is missing). Returns the looked-up value together with the
state after the call. -/
def getFileInfoById (s : Storage) (now : Nat) (id : String) :
    Option FileInfo × Storage :=
  if !validIdTest id then (none, s)
  else
    match getRecord s.metadata id with
    | none => (none, s)
    | some fileInfo =>
      if isFileExpired now fileInfo then (none, s)
      else if !s.disk.contains fileInfo.path then
        (none, tryWriteMirror { s with metadata := removeRecord s.metadata id })
      else (some fileInfo, s)

/-- `crypto.timingSafeEqual(Buffer.from(a), Buffer.from(b))`: throws a
`RangeError` when the UTF-8 byte lengths of the two buffers differ, and
otherwise reports whether the contents coincide. -/
def timingSafeEqual (a b : String) : Except Unit Bool :=
  if a.utf8ByteSize = b.utf8ByteSize then .ok (a == b) else .error ()

/-- `verifyFileAccessToken`: no id-format check and no expiry check — a bare
map read, the truthiness guard on the stored token, then `timingSafeEqual`. -/
def verifyFileAccessToken (s : Storage) (id token : String) : Except Unit Bool :=
  match getRecord s.metadata id with
  | none => .ok false
  | some fileInfo =>
    if tokenMissing fileInfo.accessToken then .ok false
    else timingSafeEqual token (fileInfo.accessToken.getD "")

/-- `deleteFileInfo`: when the id is bound, unlink the content file if present
(`unlinkSync` guarded by `existsSync`, inside `try`/`catch`), drop the map
binding, and attempt the mirror write (failure only logged). Absent ids are a
no-op. Every fallible call is caught, so the operation never throws. -/
def deleteFileInfo (s : Storage) (id : String) : Storage :=
  match getRecord s.metadata id with
  | none => s
  | some fileInfo =>
    tryWriteMirror
      { s with
        disk := s.disk.filter (fun p => p != fileInfo.path),
        metadata := removeRecord s.metadata id }

/-- `incrementDownloadCount`: when the id is bound, set
`downloadCount = (downloadCount || 0) + 1` (JS `||` sends both `undefined` and
`0` to `0`) and attempt the mirror write (failure only logged). -/
def incrementDownloadCount (s : Storage) (id : String) : Storage :=
  match getRecord s.metadata id with
  | none => s
  | some fileInfo =>
    tryWriteMirror
      { s with
        metadata := setRecord s.metadata id
          { fileInfo with downloadCount := some (fileInfo.downloadCount.getD 0 + 1) } }

/-- One iteration of the `Object.keys(fileInfoStorage).forEach` body of
`cleanupExpiredFiles`: re-read the binding from the current map and delete it
when `now > expiryDate` (strict). The `none` branch is unreachable in JS,
where `Object.keys` yields each key once. -/
def cleanupStep (now : Nat) (st : Storage) (id : String) : Storage :=
  match getRecord st.metadata id with
  | none => st
  | some fileInfo =>
    if fileInfo.expiryDate < now then deleteFileInfo st id else st

/-- `cleanupExpiredFiles`: iterate over a snapshot of the keys taken before
the loop, evicting the strictly expired bindings. The TS function is `void`,
so its call yields `undefined`, modelled by the constant `none` second
component (the call sites in `index.ts` nevertheless compare the returned
value with a number). -/
def cleanupExpiredFiles (s : Storage) (now : Nat) : Storage × Option Nat :=
  ((s.metadata.map Prod.fst).foldl (cleanupStep now) s, none)

/-! ### The integrity sanitizer (`src/utils/fileSanitizer.ts`) -/

/-- The denylist `DANGEROUS_EXTENSIONS` of `fileSanitizer.ts`, verbatim. -/
def DANGEROUS_EXTENSIONS : List String :=
  ["exe", "dll", "com", "bat", "cmd", "vbs", "js", "jse", "ws", "wsf", "wsc", "wsh",
   "msc", "scr", "ps1", "msi", "msp", "hta", "cpl", "jar", "vb", "vbe",
   "php", "phtml", "php3", "php4", "php5", "php7", "phps", "pht", "phar", "asp",
   "aspx", "cer", "csr", "jsp", "jspx", "cfm", "cfml", "py", "pl", "cgi",
   "sh", "bash", "zsh", "ksh", "ade", "adp", "app", "application", "gadget",
   "inf", "ins", "isp", "lnk", "msh", "msh1", "msh2", "mshxml", "msh1xml",
   "msh2xml", "prf", "prg", "reg", "scf", "sct", "shb", "shs", "url", "xbap"]

/-- What `sanitizeFile` observes of the uploaded file on disk: `existsSync`,
`statSync().isFile()`, `statSync().size`, and the raw content bytes. -/
structure FsFile where
  present : Bool := true
  isFile : Bool := true
  size : Nat := 0
  bytes : List Nat := []
deriving Repr, DecidableEq

/-- The `SanitizedFileInfo` interface of `src/types/interfaces.ts`. -/
structure SanitizedFileInfo where
  originalName : String
  sanitizedName : String
  extension : String
  mimeType : String
  size : Nat
  hash : String
deriving Repr, DecidableEq

/-- `path.extname(originalName).toLowerCase().replace('.', '')`. Node's
`path.extname` yields the suffix of the last path segment from its last dot
(empty when there is no dot, or the only dot leads the segment; a bare
trailing dot yields `"."`); `toLowerCase` lowercases it and the JS `replace`
with a string pattern removes only the first occurrence — the leading dot.
Computed on the character list directly. -/
def extensionOf (originalName : String) : String :=
  let base := (originalName.toList.reverse.takeWhile (fun c => c ≠ '/')).reverse
  let afterDot := (base.reverse.takeWhile (fun c => c ≠ '.')).reverse
  if afterDot.length = base.length then ""
  else if afterDot.length + 1 = base.length then ""
  else String.mk (afterDot.map Char.toLower)

/-- `sanitizeFile`. `randName` stands for `crypto.randomBytes(16).toString('hex')`
and `hashHex` for the SHA-256 hex digest computed by `calculateFileHash`; both
enter as arguments so the model stays deterministic. Errors carry the
`FileUploadError` message and status code. Note that the body consists of the
existence, is-a-file and extension-denylist checks only: `detectMaliciousFile`
is not invoked here, nor anywhere outside the test suite. -/
def sanitizeFile (f : FsFile) (originalName mimeType : String)
    (randName hashHex : String) : Except (String × Nat) SanitizedFileInfo :=
  if !f.present then .error ("File not found", 404)
  else if !f.isFile then .error ("Not a valid file", 400)
  else
    let extension := extensionOf originalName
    if DANGEROUS_EXTENSIONS.contains extension then
      .error ("File type not allowed for security reasons", 400)
    else
      .ok { originalName := originalName,
            sanitizedName :=
              randName ++ (if extension ≠ "" then "." ++ extension else ""),
            extension := extension,
            mimeType := mimeType,
            size := f.size,
            hash := hashHex }

/-- `detectMaliciousFile`: read the first 8 bytes into a zero-filled buffer
(`Buffer.alloc(8)`) and match the executable signatures. The hex-string
comparisons of the source are byte-for-byte comparisons of the prefix. (The
`catch` branch returning `true` on a read error is outside this pure model.) -/
def detectMaliciousFile (bytes : List Nat) : Bool :=
  let b := fun i => (bytes.take 8).getD i 0
  (b 0 == 0x4d && b 1 == 0x5a) ||
  (b 0 == 0x7f && b 1 == 0x45 && b 2 == 0x4c && b 3 == 0x46) ||
  ([[0xfe, 0xed, 0xfa, 0xce], [0xce, 0xfa, 0xed, 0xfe],
    [0xfe, 0xed, 0xfa, 0xcf], [0xcf, 0xfa, 0xed, 0xfe]].contains
      [b 0, b 1, b 2, b 3])

/-! ### Concrete fixtures used to instantiate the theorems -/

/-- A syntactically valid UUID (the one pinned in the repository's tests). -/
def exId : String := "23fbbc98-8bd8-43fa-a502-321c836ebfce"

/-- A record created at time `0` whose TTL ends at time `100`. -/
def exRecord : FileInfo :=
  { id := exId, originalName := "a.txt", filename := "f.txt",
    mimetype := "text/plain", size := 10, path := "/uploads/f.txt",
    uploadDate := 0, expiryDate := 100,
    accessToken := some "ab", downloadCount := some 0 }

/-- Healthy storage: the record is in the map, its content file on disk, the
mirror up to date. -/
def exState : Storage :=
  { metadata := [(exId, exRecord)], disk := ["/uploads/f.txt"],
    mirror := some [(exId, exRecord)] }

/-- Same metadata, but the backing content file is gone from disk. -/
def exStateNoDisk : Storage :=
  { metadata := [(exId, exRecord)], disk := [],
    mirror := some [(exId, exRecord)] }

/-- Storage with no records at all. -/
def emptyState : Storage := { metadata := [], disk := [], mirror := some [] }

/-- The storage directory exists but every mirror write fails (disk full). -/
def fullDiskState : Storage :=
  { metadata := [], disk := [], mirror := some [],
    storageDirExists := true, diskFull := true }

/-- The storage directory is missing and the disk is full, so even the
post-`mkdirSync` retry write fails. -/
def noDirFullDiskState : Storage :=
  { metadata := [], disk := [], mirror := none,
    storageDirExists := false, diskFull := true }

/-- A map key that is not in UUID format (rejected by `validIdTest`). -/
def badIdKey : String := "not-a-uuid"

/-- A record stored under a non-UUID key, with TTL ending at time `100`. -/
def badIdRecord : FileInfo :=
  { id := badIdKey, originalName := "b.txt", filename := "g.txt",
    mimetype := "text/plain", size := 5, path := "/uploads/g.txt",
    uploadDate := 0, expiryDate := 100,
    accessToken := some "tok", downloadCount := some 0 }

/-- Storage holding only `badIdRecord`. -/
def badIdState : Storage :=
  { metadata := [(badIdKey, badIdRecord)], disk := ["/uploads/g.txt"] }

/-- The file `sanitizeFile` is given in the rejection scenario: its content
starts with the PE signature `4D 5A`. -/
def mzPdfFile : FsFile :=
  { present := true, isFile := true, size := 1024, bytes := [0x4d, 0x5a] }

/-- Loop invariant helper for the cleanup sweep: the key is currently bound
to a strictly expired record. -/
def boundExpired (now : Nat) (m : List (String × FileInfo)) (k : String) : Bool :=
  match getRecord m k with
  | none => false
  | some fi => fi.expiryDate < now

/-! ### Map lemmas -/

theorem getRecord_removeRecord (m : List (String × FileInfo)) (id k : String) :
    getRecord (removeRecord m id) k = if k = id then none else getRecord m k := by
  induction m with
  | nil => simp [removeRecord, getRecord]
  | cons e rest ih =>
    obtain ⟨k1, v⟩ := e
    by_cases h1 : k1 = id <;> by_cases h2 : k1 = k <;> by_cases h3 : k = id <;>
      simp_all [removeRecord, getRecord]

theorem getRecord_setRecord (m : List (String × FileInfo)) (id : String)
    (v : FileInfo) (k : String) :
    getRecord (setRecord m id v) k = if k = id then some v else getRecord m k := by
  by_cases h : k = id
  · simp [setRecord, getRecord, getRecord_removeRecord, h]
  · simp [setRecord, getRecord, getRecord_removeRecord, h, Ne.symm h]

theorem mem_keys_of_getRecord (m : List (String × FileInfo)) (k : String)
    (v : FileInfo) (h : getRecord m k = some v) : k ∈ m.map Prod.fst := by
  induction m with
  | nil => simp [getRecord] at h
  | cons e rest ih =>
    obtain ⟨k1, v1⟩ := e
    by_cases h1 : k1 = k
    · simp [h1]
    · rw [getRecord, if_neg h1] at h
      simpa using Or.inr (ih h)

theorem normalizeFileInfo_id (fileInfo : FileInfo) (tok : String) :
    (normalizeFileInfo fileInfo tok).id = fileInfo.id := by
  unfold normalizeFileInfo
  split <;> dsimp only <;> split <;> rfl

theorem tryWriteMirror_metadata (s : Storage) :
    (tryWriteMirror s).metadata = s.metadata := by
  unfold tryWriteMirror; split <;> rfl

theorem tryWriteMirror_disk (s : Storage) :
    (tryWriteMirror s).disk = s.disk := by
  unfold tryWriteMirror; split <;> rfl

theorem deleteFileInfo_absent (s : Storage) (id : String)
    (h : getRecord s.metadata id = none) : deleteFileInfo s id = s := by
  unfold deleteFileInfo
  rw [h]

theorem getRecord_deleteFileInfo (s : Storage) (id k : String) :
    getRecord (deleteFileInfo s id).metadata k =
      if k = id then none else getRecord s.metadata k := by
  unfold deleteFileInfo
  cases h : getRecord s.metadata id with
  | none =>
    by_cases hk : k = id
    · simp [hk, h]
    · simp [hk]
  | some fi =>
    rw [tryWriteMirror_metadata]
    exact getRecord_removeRecord s.metadata id k

theorem getRecord_cleanupStep (now : Nat) (st : Storage) (id k : String) :
    getRecord (cleanupStep now st id).metadata k =
      if k = id ∧ boundExpired now st.metadata id = true then none
      else getRecord st.metadata k := by
  unfold cleanupStep
  cases h : getRecord st.metadata id with
  | none => simp [boundExpired, h]
  | some fi =>
    change getRecord
      (if fi.expiryDate < now then deleteFileInfo st id else st).metadata k = _
    by_cases he : fi.expiryDate < now
    · rw [if_pos he, getRecord_deleteFileInfo]
      simp [boundExpired, h, he]
    · rw [if_neg he]
      simp [boundExpired, h, he]

theorem getRecord_foldl_cleanupStep (now : Nat) (ids : List String)
    (st : Storage) (k : String) :
    getRecord (ids.foldl (cleanupStep now) st).metadata k =
      if k ∈ ids ∧ boundExpired now st.metadata k = true then none
      else getRecord st.metadata k := by
  induction ids generalizing st with
  | nil => simp
  | cons id rest ih =>
    rw [List.foldl_cons, ih]
    by_cases hk : k = id
    · subst hk
      by_cases hb : boundExpired now st.metadata k = true
      · have h1 : getRecord (cleanupStep now st k).metadata k = none := by
          rw [getRecord_cleanupStep]; simp [hb]
        have h2 : boundExpired now (cleanupStep now st k).metadata k = false := by
          unfold boundExpired; rw [h1]
        simp [h1, h2, hb]
      · have h1 : getRecord (cleanupStep now st k).metadata k =
            getRecord st.metadata k := by
          rw [getRecord_cleanupStep]; simp [hb]
        have h2 : boundExpired now (cleanupStep now st k).metadata k =
            boundExpired now st.metadata k := by
          unfold boundExpired; rw [h1]
        simp [h1, h2, hb]
    · have h1 : getRecord (cleanupStep now st id).metadata k =
          getRecord st.metadata k := by
        rw [getRecord_cleanupStep]; simp [hk]
      have h2 : boundExpired now (cleanupStep now st id).metadata k =
          boundExpired now st.metadata k := by
        unfold boundExpired; rw [h1]
      simp [h1, h2, hk]

/-! ### Claim C1 -/

/-- Claim C1, counterexample to the stated boundary: `exRecord` expires at
time `100`, and a `lookup` performed at exactly that time still returns the
record — the claim says a query at exactly `T+Δ` yields absent, but
`isFileExpired` uses a strict comparison. -/
theorem lookup_at_exact_expiry_returns_record :
    isFileExpired exRecord.expiryDate exRecord = false ∧
    (getFileInfoById exState exRecord.expiryDate exId).1 = some exRecord :=
  ⟨rfl, rfl⟩

/-- Claim C1 (amended): for a record with a well-formed id whose content file
is on disk, `lookup` (`getFileInfoById`) returns the record for every query
at time `now ≤ expiresAt` — including exactly `expiresAt` — and returns
absent for every query at time `now > expiresAt`. -/
theorem getFileInfoById_expiry_boundary (s : Storage) (now : Nat) (id : String)
    (fi : FileInfo) (hid : validIdTest id = true)
    (hfi : getRecord s.metadata id = some fi)
    (hdisk : s.disk.contains fi.path = true) :
    (now ≤ fi.expiryDate → (getFileInfoById s now id).1 = some fi) ∧
    (fi.expiryDate < now → (getFileInfoById s now id).1 = none) := by
  have hmem : fi.path ∈ s.disk := by simpa using hdisk
  constructor <;> intro h
  · unfold getFileInfoById
    simp [hid, hfi, isFileExpired, Nat.not_lt.mpr h, hmem]
  · unfold getFileInfoById
    simp [hid, hfi, isFileExpired, h]

/-- Witness for the amended C1 theorem: queries strictly before and strictly
after the expiry of the concrete record. -/
theorem getFileInfoById_expiry_boundary_witness :
    (getFileInfoById exState 50 exId).1 = some exRecord ∧
    (getFileInfoById exState 101 exId).1 = none := by
  have h1 := getFileInfoById_expiry_boundary exState 50 exId exRecord rfl rfl rfl
  have h2 := getFileInfoById_expiry_boundary exState 101 exId exRecord rfl rfl rfl
  exact ⟨h1.1 (by decide), h2.2 (by decide)⟩

/-! ### Claim C2 -/

/-- Claim C2, counterexample: a record whose `expiresAt` equals `now` is not
evicted by the sweep (the source comparison is strict), and the sweep returns
`undefined` (modelled `none`), not the number of evicted records. -/
theorem sweep_at_exact_expiry_keeps_record :
    getRecord (cleanupExpiredFiles exState exRecord.expiryDate).1.metadata exId
      = some exRecord ∧
    (cleanupExpiredFiles exState exRecord.expiryDate).2 = none :=
  ⟨rfl, rfl⟩

/-- Claim C2 (amended): `sweepExpired` (`cleanupExpiredFiles`) evicts exactly
the records with `now > expiresAt` — a record with `now = expiresAt`
survives — and returns no count (the TS function is `void`, so its call
sites in `index.ts` read `undefined`). -/
theorem cleanupExpiredFiles_amended (s : Storage) (now : Nat) :
    (cleanupExpiredFiles s now).2 = none ∧
    ∀ k, getRecord (cleanupExpiredFiles s now).1.metadata k =
      match getRecord s.metadata k with
      | none => none
      | some fi => if fi.expiryDate < now then none else some fi := by
  refine ⟨rfl, fun k => ?_⟩
  show getRecord ((s.metadata.map Prod.fst).foldl (cleanupStep now) s).metadata k = _
  rw [getRecord_foldl_cleanupStep]
  cases h : getRecord s.metadata k with
  | none => simp [boundExpired, h]
  | some fi =>
    have hk : k ∈ s.metadata.map Prod.fst := mem_keys_of_getRecord _ _ _ h
    by_cases he : fi.expiryDate < now
    · simp [boundExpired, h, he, hk]
    · simp [boundExpired, h, he]

/-- Witness for the amended C2 theorem: at time `101` the sweep evicts the
concrete record that expired at time `100`. -/
theorem cleanupExpiredFiles_amended_witness :
    (cleanupExpiredFiles exState 101).2 = none ∧
    getRecord (cleanupExpiredFiles exState 101).1.metadata exId = none := by
  have h := cleanupExpiredFiles_amended exState 101
  exact ⟨h.1, (h.2 exId).trans rfl⟩

/-! ### Claim C6 -/

/-- Claim C6, counterexample: a `lookup` of an expired record returns absent
but leaves the whole storage state — metadata entry included — unchanged; no
eviction is triggered by the lookup. -/
theorem lookup_expired_does_not_evict :
    isFileExpired 101 exRecord = true ∧
    (getFileInfoById exState 101 exId).1 = none ∧
    (getFileInfoById exState 101 exId).2 = exState ∧
    getRecord (getFileInfoById exState 101 exId).2.metadata exId = some exRecord :=
  ⟨rfl, rfl, rfl, rfl⟩

/-- Claim C6 (amended): for a stored record with `now > expiresAt`, `lookup`
treats the record as absent but performs no eviction at all — the state after
the call is exactly the state before, and the record stays until a sweep. -/
theorem getFileInfoById_expired_amended (s : Storage) (now : Nat) (id : String)
    (fi : FileInfo) (hid : validIdTest id = true)
    (hfi : getRecord s.metadata id = some fi)
    (hexp : isFileExpired now fi = true) :
    getFileInfoById s now id = (none, s) := by
  unfold getFileInfoById
  simp [hid, hfi, hexp]

/-- Witness for the amended C6 theorem at the concrete expired record. -/
theorem getFileInfoById_expired_amended_witness :
    getFileInfoById exState 101 exId = (none, exState) :=
  getFileInfoById_expired_amended exState 101 exId exRecord rfl rfl rfl

/-! ### Claim C7 -/

/-- Claim C7 (confirmed): for a stored record that is live by time but whose
backing content file is absent from disk, `lookup` returns absent and
synchronously removes the metadata entry, so every subsequent `lookup` — at
any time, and even after the content file is restored to disk — also returns
absent. -/
theorem getFileInfoById_missing_content_selfheal (s : Storage) (now : Nat)
    (id : String) (fi : FileInfo) (hid : validIdTest id = true)
    (hfi : getRecord s.metadata id = some fi)
    (hlive : isFileExpired now fi = false)
    (hmiss : s.disk.contains fi.path = false) :
    (getFileInfoById s now id).1 = none ∧
    getRecord (getFileInfoById s now id).2.metadata id = none ∧
    ∀ disk2 now2,
      (getFileInfoById { (getFileInfoById s now id).2 with disk := disk2 }
        now2 id).1 = none := by
  have hnotmem : fi.path ∉ s.disk := by simpa using hmiss
  have hmain : getFileInfoById s now id =
      (none, tryWriteMirror { s with metadata := removeRecord s.metadata id }) := by
    unfold getFileInfoById
    simp [hid, hfi, hlive, hnotmem]
  have hgone : getRecord
      (tryWriteMirror { s with metadata := removeRecord s.metadata id }).metadata
      id = none := by
    rw [tryWriteMirror_metadata]
    simp [getRecord_removeRecord]
  refine ⟨by rw [hmain], by rw [hmain]; exact hgone, fun disk2 now2 => ?_⟩
  rw [hmain]
  unfold getFileInfoById
  simp [hid, hgone]

/-- Witness for the C7 theorem: the concrete live record whose content file is
missing is self-healed, and a later lookup with the content restored still
reports absent. -/
theorem getFileInfoById_missing_content_selfheal_witness :
    (getFileInfoById exStateNoDisk 50 exId).1 = none ∧
    getRecord (getFileInfoById exStateNoDisk 50 exId).2.metadata exId = none ∧
    (getFileInfoById
      { (getFileInfoById exStateNoDisk 50 exId).2 with disk := ["/uploads/f.txt"] }
      60 exId).1 = none := by
  obtain ⟨h1, h2, h3⟩ :=
    getFileInfoById_missing_content_selfheal exStateNoDisk 50 exId exRecord
      rfl rfl rfl rfl
  exact ⟨h1, h2, h3 ["/uploads/f.txt"] 60⟩

/-! ### Claim C3 -/

/-- Claim C3, counterexample: the stored token of `exRecord` is `"ab"`
(2 bytes); presenting the 1-byte token `"a"` makes `crypto.timingSafeEqual`
throw a `RangeError` — the call raises instead of returning `false`. -/
theorem verifyToken_length_mismatch_raises :
    exRecord.accessToken = some "ab" ∧
    verifyFileAccessToken exState exId "a" = .error () :=
  ⟨rfl, rfl⟩

/-- Claim C3 (amended): `verifyToken` returns `false` when no record with the
id exists, and returns `false` for every presented token that differs from the
(non-empty) stored token while having the same UTF-8 byte length; but for a
presented token whose byte length differs from the stored one it throws
(`crypto.timingSafeEqual` raises a `RangeError` on buffers of unequal length)
rather than returning `false`. -/
theorem verifyFileAccessToken_amended (s : Storage) (id t : String) :
    (getRecord s.metadata id = none → verifyFileAccessToken s id t = .ok false) ∧
    (∀ fi stored, getRecord s.metadata id = some fi →
      fi.accessToken = some stored → stored ≠ "" →
      t.utf8ByteSize = stored.utf8ByteSize → t ≠ stored →
      verifyFileAccessToken s id t = .ok false) ∧
    (∀ fi stored, getRecord s.metadata id = some fi →
      fi.accessToken = some stored → stored ≠ "" →
      t.utf8ByteSize ≠ stored.utf8ByteSize →
      verifyFileAccessToken s id t = .error ()) := by
  refine ⟨fun h => ?_,
          fun fi stored hfi htok hne hlen hneq => ?_,
          fun fi stored hfi htok hne hlen => ?_⟩
  · unfold verifyFileAccessToken
    simp [h]
  · unfold verifyFileAccessToken
    simp [hfi, htok, tokenMissing, hne, timingSafeEqual, hlen, hneq]
  · unfold verifyFileAccessToken
    simp [hfi, htok, tokenMissing, hne, timingSafeEqual, hlen]

/-- Witness for the amended C3 theorem, covering all three branches on
concrete states: an unknown id, a same-length wrong token, and a token of
different byte length. -/
theorem verifyFileAccessToken_amended_witness :
    verifyFileAccessToken emptyState exId "t" = .ok false ∧
    verifyFileAccessToken exState exId "xy" = .ok false ∧
    verifyFileAccessToken exState exId "a" = .error () := by
  refine ⟨(verifyFileAccessToken_amended emptyState exId "t").1 rfl, ?_, ?_⟩
  · exact (verifyFileAccessToken_amended exState exId "xy").2.1 exRecord "ab"
      rfl rfl (by decide) rfl (by decide)
  · exact (verifyFileAccessToken_amended exState exId "a").2.2 exRecord "ab"
      rfl rfl (by decide) (by decide)

/-! ### Claim C4 -/

/-- Claim C4 (code bug): `detectMaliciousFile` does recognise the PE signature
`4D 5A` of `mzPdfFile`, but `sanitizeFile` never invokes it (nor does any
caller outside the test suite), so a byte stream beginning `4D 5A` with
filename `invoice.pdf` and declared MIME type `application/pdf` is accepted
with a fresh sanitized name instead of being rejected. -/
theorem sanitizeFile_accepts_pe_with_benign_metadata :
    detectMaliciousFile mzPdfFile.bytes = true ∧
    sanitizeFile mzPdfFile "invoice.pdf" "application/pdf" "r16" "h" =
      .ok { originalName := "invoice.pdf", sanitizedName := "r16.pdf",
            extension := "pdf", mimeType := "application/pdf",
            size := 1024, hash := "h" } :=
  ⟨rfl, rfl⟩

/-! ### Claim C5 -/

/-- Claim C5, counterexample: with the storage directory present but the disk
full, `saveFileInfo` swallows the write failure — it returns `.ok` with the
record only in the in-memory map while the mirror still holds the previous
(empty) contents; no `PersistenceError` reaches the caller. -/
theorem saveFileInfo_swallows_write_failure :
    saveFileInfo fullDiskState exRecord "tok" =
      .ok { metadata := [(exId, exRecord)], disk := [], mirror := some [],
            storageDirExists := true, diskFull := true } :=
  rfl

/-- Claim C5 (amended): `saveFileInfo` stores the record in memory and then
attempts the durable write. When the disk is writable the mirror is persisted
before returning; when the write fails with the storage directory present the
failure is caught and only logged — the call returns normally and the mirror
stays as it was; only when the storage directory is missing and the retried
write after `mkdirSync` also fails does the error propagate to the caller. -/
theorem saveFileInfo_amended (s : Storage) (fi : FileInfo) (tok : String) :
    (s.diskFull = false →
      ∃ s2, saveFileInfo s fi tok = .ok s2 ∧ s2.mirror = some s2.metadata) ∧
    (s.diskFull = true → s.storageDirExists = true →
      ∃ s2, saveFileInfo s fi tok = .ok s2 ∧ s2.mirror = s.mirror ∧
        ∃ fi2, getRecord s2.metadata fi.id = some fi2) ∧
    (s.diskFull = true → s.storageDirExists = false →
      saveFileInfo s fi tok = .error ()) := by
  refine ⟨fun hdf => ?_, fun hdf hdir => ?_, fun hdf hdir => ?_⟩
  · by_cases hdir : s.storageDirExists = true
    · refine ⟨{ s with
          metadata := setRecord s.metadata (normalizeFileInfo fi tok).id
            (normalizeFileInfo fi tok),
          mirror := some (setRecord s.metadata (normalizeFileInfo fi tok).id
            (normalizeFileInfo fi tok)) }, ?_, rfl⟩
      simp [saveFileInfo, writeOk, hdf, hdir]
    · refine ⟨{ s with
          metadata := setRecord s.metadata (normalizeFileInfo fi tok).id
            (normalizeFileInfo fi tok),
          mirror := some (setRecord s.metadata (normalizeFileInfo fi tok).id
            (normalizeFileInfo fi tok)),
          storageDirExists := true }, ?_, rfl⟩
      simp [saveFileInfo, writeOk, hdf, hdir]
  · refine ⟨{ s with
        metadata := setRecord s.metadata (normalizeFileInfo fi tok).id
          (normalizeFileInfo fi tok) }, ?_, rfl, normalizeFileInfo fi tok, ?_⟩
    · simp [saveFileInfo, writeOk, hdf, hdir]
    · show getRecord (setRecord s.metadata (normalizeFileInfo fi tok).id
        (normalizeFileInfo fi tok)) fi.id = _
      rw [← normalizeFileInfo_id fi tok, getRecord_setRecord]
      simp
  · simp [saveFileInfo, writeOk, hdf, hdir]

/-- Witness for the amended C5 theorem: on the state with a missing storage
directory and a full disk the error propagates. -/
theorem saveFileInfo_amended_witness :
    saveFileInfo noDirFullDiskState exRecord "tok" = .error () :=
  (saveFileInfo_amended noDirFullDiskState exRecord "tok").2.2 rfl rfl

/-! ### Claim C8 -/

/-- Claim C8 (confirmed): `evict` (`deleteFileInfo`) is idempotent — the
second call finds the id absent and is a no-op, so the state after two calls
equals the state after one. The embedding is a total function on `Storage`
(every fallible call in the source body sits inside `try`/`catch`), so the
second call raises no error. -/
theorem deleteFileInfo_idempotent (s : Storage) (id : String) :
    deleteFileInfo (deleteFileInfo s id) id = deleteFileInfo s id :=
  deleteFileInfo_absent (deleteFileInfo s id) id
    (by rw [getRecord_deleteFileInfo]; simp)

/-- Witness for the C8 theorem at the concrete stored record. -/
theorem deleteFileInfo_idempotent_witness :
    deleteFileInfo (deleteFileInfo exState exId) exId = deleteFileInfo exState exId :=
  deleteFileInfo_idempotent exState exId

/-! ### Claim C9 -/

/-- Claim C9 (confirmed): for an id present in storage,
`recordDownload` (`incrementDownloadCount`) sets that record's
`downloadCount` to its previous effective value plus exactly one (JS
`(downloadCount || 0) + 1`, so an unset counter counts as `0`), leaves every
other field of the record and every other record unchanged, and leaves the
content files untouched. The counter lives in `Nat` and only ever moves to
`previous + 1`, so it is non-negative and non-decreasing. -/
theorem incrementDownloadCount_spec (s : Storage) (id : String) (fi : FileInfo)
    (hfi : getRecord s.metadata id = some fi) :
    getRecord (incrementDownloadCount s id).metadata id =
      some { fi with downloadCount := some (fi.downloadCount.getD 0 + 1) } ∧
    (∀ k, k ≠ id →
      getRecord (incrementDownloadCount s id).metadata k = getRecord s.metadata k) ∧
    (incrementDownloadCount s id).disk = s.disk := by
  have hmain : incrementDownloadCount s id =
      tryWriteMirror
        { s with
          metadata :=
            setRecord s.metadata id
              { fi with downloadCount := some (fi.downloadCount.getD 0 + 1) } } := by
    unfold incrementDownloadCount
    rw [hfi]
  rw [hmain]
  refine ⟨?_, fun k hk => ?_, ?_⟩
  · rw [tryWriteMirror_metadata]
    simp [getRecord_setRecord]
  · rw [tryWriteMirror_metadata]
    simp [getRecord_setRecord, hk]
  · rw [tryWriteMirror_disk]

/-- Witness for the C9 theorem: the concrete record's counter moves from `0`
to `1` and the disk is untouched. -/
theorem incrementDownloadCount_spec_witness :
    getRecord (incrementDownloadCount exState exId).metadata exId =
      some { exRecord with downloadCount := some 1 } ∧
    (incrementDownloadCount exState exId).disk = exState.disk := by
  have h := incrementDownloadCount_spec exState exId exRecord rfl
  exact ⟨h.1.trans rfl, h.2.2⟩

/-! ### Claim C10 -/

/-- Claim C10 (confirmed): token verification ignores both expiry and id
format. For any stored record — even one already expired, and even one stored
under a key that fails the UUID well-formedness test, since
`verifyFileAccessToken` performs no id-format check before the map access —
presenting the stored (non-empty) token returns `true`. -/
theorem verifyFileAccessToken_ignores_expiry_and_format (s : Storage)
    (id t : String) (fi : FileInfo) (now : Nat)
    (hfi : getRecord s.metadata id = some fi)
    (htok : fi.accessToken = some t) (hne : t ≠ "")
    (hexp : isFileExpired now fi = true) :
    verifyFileAccessToken s id t = .ok true := by
  unfold verifyFileAccessToken
  simp [hfi, htok, tokenMissing, hne, timingSafeEqual]

/-- Witness for the C10 theorem: a record stored under the non-UUID key
`"not-a-uuid"`, already expired at time `101`, still verifies with its stored
token. -/
theorem verifyFileAccessToken_ignores_expiry_and_format_witness :
    validIdTest badIdKey = false ∧
    isFileExpired 101 badIdRecord = true ∧
    verifyFileAccessToken badIdState badIdKey "tok" = .ok true := by
  refine ⟨rfl, rfl, ?_⟩
  exact verifyFileAccessToken_ignores_expiry_and_format badIdState badIdKey
    "tok" badIdRecord 101 rfl rfl (by decide) rfl

end JogouBaixou
